import Mathlib

/-
Shallow embedding of the expense-ledger program in src/Practical.py
(class ExpenseTracker).  The in-memory dataframe `self.df` is modelled as a
`List Expense`; the backing CSV store is modelled as a `Store` value
(missing file / malformed file / a list of typed rows, since the concrete
file format is out of scope per the spec).  Amounts (Python floats holding
decimal currency values) are modelled as rationals; dates as validated
calendar dates, with `parseDate` embedding pd.to_datetime on the
"YYYY-MM-DD" strings the program's CLI supplies.
-/

/-- A calendar date, the model of a pandas Timestamp with no time-of-day. -/
structure Date where
  year : Nat
  month : Nat
  day : Nat
deriving DecidableEq, Repr

/-- Gregorian leap-year test. -/
def isLeap (y : Nat) : Bool :=
  (y % 4 == 0 && y % 100 != 0) || (y % 400 == 0)

/-- Number of days in a month of a given year. -/
def daysInMonth (y m : Nat) : Nat :=
  if m = 2 then (if isLeap y then 29 else 28)
  else if m = 4 ∨ m = 6 ∨ m = 9 ∨ m = 11 then 30
  else 31

/-- A structurally valid calendar date. -/
def dateValid (d : Date) : Bool :=
  decide (1 ≤ d.month) && decide (d.month ≤ 12) &&
  decide (1 ≤ d.day) && decide (d.day ≤ daysInMonth d.year d.month)

/-- Splitting a character list on a separator, the way String.split does
("" gives [""], a trailing separator gives a final ""). -/
def splitOnChar (sep : Char) : List Char → List (List Char)
  | [] => [[]]
  | c :: rest =>
    let r := splitOnChar sep rest
    if c == sep then [] :: r
    else
      match r with
      | [] => [[c]]
      | g :: gs => (c :: g) :: gs

/-- Accumulator loop for reading a run of decimal digits. -/
def digitsAux : List Char → Nat → Option Nat
  | [], acc => some acc
  | c :: cs, acc =>
    if c.isDigit then digitsAux cs (10 * acc + (c.toNat - 48)) else none

/-- Reads a non-empty run of decimal digits as a natural number, the way
Python int() reads an unsigned numeral; none on anything else. -/
def digits? : List Char → Option Nat
  | [] => none
  | cs => digitsAux cs 0

/-- Model of pd.to_datetime on the numeric "YYYY-MM-DD" date strings the
program's CLI asks for: returns the parsed date, or none when the string is
not a valid calendar date (pandas raises ValueError there, which the
program catches). -/
def parseDate (s : String) : Option Date :=
  match splitOnChar '-' s.data with
  | [ys, ms, ds] =>
    match digits? ys, digits? ms, digits? ds with
    | some y, some m, some d =>
        if dateValid ⟨y, m, d⟩ then some ⟨y, m, d⟩ else none
    | _, _, _ => none
  | _ => none

/-- Chronological order on dates (the order pandas Timestamps compare in). -/
def dateLe (a b : Date) : Bool :=
  decide (a.year < b.year) ||
  (a.year == b.year &&
    (decide (a.month < b.month) ||
      (a.month == b.month && decide (a.day ≤ b.day))))

/-- The unsigned part of a decimal numeral, as a numerator over a power of
ten: digits with an optional fractional part. -/
def floatCore (t : List Char) : Option (Nat × Nat) :=
  match splitOnChar '.' t with
  | [ip] => (digits? ip).map (fun n => (n, 1))
  | [ip, fp] =>
    match digits? ip, digits? fp with
    | some a, some b => some (a * 10 ^ fp.length + b, 10 ^ fp.length)
    | _, _ => none
  | _ => none

/-- The finite-value restriction of Python float(s): optional leading
minus, digits, optional fractional part, as an exact rational.  Fails
(none) where float() raises ValueError.  float() additionally accepts the
non-finite spellings "nan" and "inf"; parseFloatPy below extends this
definition with those, and the NaN analysis of add_expense is carried out
against that extension. -/
def parseFloat (s : String) : Option ℚ :=
  match s.data with
  | '-' :: rest => (floatCore rest).map (fun p => Rat.divInt (-(p.1 : Int)) (p.2 : Int))
  | _ => (floatCore s.data).map (fun p => Rat.divInt (p.1 : Int) (p.2 : Int))

/-- One expense record: a row of the dataframe
(Date, Amount, Category, Description). -/
structure Expense where
  date : Date
  amount : ℚ
  category : String
  description : String
deriving DecidableEq, Repr

/-- The fixed category list `self.categories` from Practical.py line 10. -/
def categories : List String := ["Food", "Transport", "Utilities", "Entertainment"]

/-- The backing store (the CSV file at `self.file_path`): absent, present
but unparseable as tabular data, or a list of rows. -/
inductive Store where
  | missing
  | malformed
  | rows (rs : List Expense)
deriving DecidableEq, Repr

/-- The tracker's mutable state: the in-memory dataframe and the store. -/
structure TrackerState where
  df : List Expense
  store : Store
deriving DecidableEq, Repr

inductive LoadError where
  | storeMalformed
deriving DecidableEq, Repr

/-- The row filter applied by load_data (Practical.py line 19):
Amount > 0 and Category in the fixed list. -/
def validRow (r : Expense) : Bool :=
  decide (0 < r.amount) && decide (r.category ∈ categories)

/-- Model of load_data (Practical.py lines 14-25): a missing file yields an
empty dataframe (the FileNotFoundError branch); a malformed file is an
uncaught fatal error; otherwise the rows are read and the invalid ones
dropped. -/
def load_data : Store → Except LoadError (List Expense)
  | Store.missing => Except.ok []
  | Store.malformed => Except.error LoadError.storeMalformed
  | Store.rows rs => Except.ok (rs.filter validRow)

inductive AddError where
  | invalidDateOrAmount
  | nonPositiveAmount
  | unknownCategory
deriving DecidableEq, Repr

/-- Model of add_expense (Practical.py lines 27-51).  Returns the new state
and either success or the error the method prints.  On success the record
is appended to the dataframe and the whole store rewritten from it
(to_csv); on any failure the method returns early, leaving state alone. -/
def add_expense (st : TrackerState) (date amount category description : String) :
    TrackerState × Except AddError Unit :=
  match parseDate date with
  | none => (st, Except.error AddError.invalidDateOrAmount)
  | some d =>
    match parseFloat amount with
    | none => (st, Except.error AddError.invalidDateOrAmount)
    | some a =>
      if a ≤ 0 then (st, Except.error AddError.nonPositiveAmount)
      else if category ∉ categories then (st, Except.error AddError.unknownCategory)
      else
        let desc := if description = "" then "No description" else description
        let df' := st.df ++ [⟨d, a, category, desc⟩]
        (⟨df', Store.rows df'⟩, Except.ok ())

/-- A Python float as add_expense actually receives it from float():
NaN, a signed infinity, or a finite value (modelled as its exact
rational).  The plain-ℚ model above covers the finite values; this type
exists because float("nan") succeeds and NaN falsifies both `amount <= 0`
and `amount > 0`, which the order on ℚ cannot express. -/
inductive PyFloat where
  | nan
  | inf
  | neginf
  | val (q : ℚ)
deriving DecidableEq, Repr

/-- Python's <= on floats: every comparison involving NaN is False. -/
def pyLe : PyFloat → PyFloat → Bool
  | PyFloat.nan, _ => false
  | _, PyFloat.nan => false
  | PyFloat.neginf, _ => true
  | _, PyFloat.neginf => false
  | _, PyFloat.inf => true
  | PyFloat.inf, _ => false
  | PyFloat.val a, PyFloat.val b => decide (a ≤ b)

/-- Python's < on floats: every comparison involving NaN is False. -/
def pyLt : PyFloat → PyFloat → Bool
  | PyFloat.nan, _ => false
  | _, PyFloat.nan => false
  | _, PyFloat.neginf => false
  | PyFloat.neginf, _ => true
  | PyFloat.inf, _ => false
  | _, PyFloat.inf => true
  | PyFloat.val a, PyFloat.val b => decide (a < b)

/-- Python float(s) with the non-finite spellings float() accepts:
"nan", "inf", "infinity", optionally signed (the lowercase forms stand
for float()'s case-insensitive family), else the finite decimal forms of
parseFloat. -/
def parseFloatPy (s : String) : Option PyFloat :=
  if s = "nan" ∨ s = "+nan" ∨ s = "-nan" then some PyFloat.nan
  else if s = "inf" ∨ s = "+inf" ∨ s = "infinity" ∨ s = "+infinity" then
    some PyFloat.inf
  else if s = "-inf" ∨ s = "-infinity" then some PyFloat.neginf
  else (parseFloat s).map PyFloat.val

/-- An expense row whose Amount column holds a full Python float. -/
structure ExpenseF where
  date : Date
  amount : PyFloat
  category : String
  description : String
deriving DecidableEq, Repr

/-- The backing store over full-float rows. -/
inductive StoreF where
  | missing
  | malformed
  | rows (rs : List ExpenseF)
deriving DecidableEq, Repr

/-- The tracker state over full-float rows. -/
structure TrackerStateF where
  df : List ExpenseF
  store : StoreF
deriving DecidableEq, Repr

/-- add_expense (Practical.py lines 27-51) re-embedded over full Python
floats: identical control flow to add_expense above, with float()'s
non-finite values representable and the code's `amount <= 0` guard taken
as Python's <= (False on NaN). -/
def add_expense_f (st : TrackerStateF) (date amount category description : String) :
    TrackerStateF × Except AddError Unit :=
  match parseDate date with
  | none => (st, Except.error AddError.invalidDateOrAmount)
  | some d =>
    match parseFloatPy amount with
    | none => (st, Except.error AddError.invalidDateOrAmount)
    | some a =>
      if pyLe a (PyFloat.val 0) then (st, Except.error AddError.nonPositiveAmount)
      else if category ∉ categories then (st, Except.error AddError.unknownCategory)
      else
        let desc := if description = "" then "No description" else description
        let df' := st.df ++ [⟨d, a, category, desc⟩]
        (⟨df', StoreF.rows df'⟩, Except.ok ())

/-- A Python value supplied for the optional min_amount argument of
filter_expenses: None, a string from input(), or a number. -/
inductive MinArg where
  | none
  | str (s : String)
  | num (x : ℚ)
deriving DecidableEq, Repr

/-- Python truthiness of a min_amount argument: None, "" and 0 are falsy. -/
def minTruthy : MinArg → Bool
  | MinArg.none => false
  | MinArg.str s => !(s == "")
  | MinArg.num _x => !(_x == 0)

/-- float() applied to a truthy min_amount argument. -/
def parseMin : MinArg → Option ℚ
  | MinArg.none => none
  | MinArg.str s => parseFloat s
  | MinArg.num x => some x

/-- Python truthiness of an optional string argument (category,
start_date, end_date): None and "" are falsy. -/
def optTruthy : Option String → Bool
  | some s => !(s == "")
  | none => false

inductive FilterError where
  | invalidStartDate
  | invalidEndDate
  | invalidMinAmount
deriving DecidableEq, Repr

/-- The `if category:` block of filter_expenses (Practical.py lines 78-79). -/
def applyCategory (category : Option String) (l : List Expense) : List Expense :=
  if optTruthy category then l.filter (fun e => e.category == category.getD "")
  else l

/-- The `if start_date:` block (lines 80-86): parse the bound, keep rows
with Date >= start; an unparseable bound aborts the call. -/
def applyStart (start_date : Option String) (l : List Expense) :
    Except FilterError (List Expense) :=
  if optTruthy start_date then
    match parseDate (start_date.getD "") with
    | some s => Except.ok (l.filter (fun e => dateLe s e.date))
    | none => Except.error FilterError.invalidStartDate
  else Except.ok l

/-- The `if end_date:` block (lines 87-93): keep rows with Date <= end. -/
def applyEnd (end_date : Option String) (l : List Expense) :
    Except FilterError (List Expense) :=
  if optTruthy end_date then
    match parseDate (end_date.getD "") with
    | some e => Except.ok (l.filter (fun r => dateLe r.date e))
    | none => Except.error FilterError.invalidEndDate
  else Except.ok l

/-- The `if min_amount:` block (lines 94-100): keep rows with
Amount >= min_amt. -/
def applyMin (min_amount : MinArg) (l : List Expense) :
    Except FilterError (List Expense) :=
  if minTruthy min_amount then
    match parseMin min_amount with
    | some m => Except.ok (l.filter (fun e => decide (m ≤ e.amount)))
    | none => Except.error FilterError.invalidMinAmount
  else Except.ok l

/-- Model of filter_expenses (Practical.py lines 75-105): the four optional
predicates applied in order to a copy of the dataframe; the result list is
what the method prints (an empty list is the "No expenses found." case). -/
def filter_expenses (df : List Expense) (category start_date end_date : Option String)
    (min_amount : MinArg) : Except FilterError (List Expense) :=
  match applyStart start_date (applyCategory category df) with
  | Except.error e => Except.error e
  | Except.ok f2 =>
    match applyEnd end_date f2 with
    | Except.error e => Except.error e
    | Except.ok f3 =>
      match applyMin min_amount f3 with
      | Except.error e => Except.error e
      | Except.ok f4 => Except.ok f4

/-- Sum of the Amount column (np.sum). -/
def sumAmounts (df : List Expense) : ℚ := (df.map (fun e => e.amount)).sum

/-- Sum of the Amount column over the rows of one category:
one entry of groupby('Category')['Amount'].sum(). -/
def catTotal (df : List Expense) (c : String) : ℚ :=
  ((df.filter (fun e => e.category == c)).map (fun e => e.amount)).sum

/-- Insertion into a list sorted by a boolean comparator. -/
def insertBy (le : α → α → Bool) (x : α) : List α → List α
  | [] => [x]
  | y :: ys => if le x y then x :: y :: ys else y :: insertBy le x ys

/-- Insertion sort by a boolean comparator (groupby sorts its keys). -/
def sortBy (le : α → α → Bool) : List α → List α
  | [] => []
  | x :: xs => insertBy le x (sortBy le xs)

/-- Lexicographic order on character lists. -/
def charListLe : List Char → List Char → Bool
  | [], _ => true
  | _ :: _, [] => false
  | a :: as, b :: bs =>
    if a < b then true else if b < a then false else charListLe as bs

/-- Lexicographic order on strings, as a boolean. -/
def strLe (a b : String) : Bool := charListLe a.data b.data

/-- The distinct categories present in the dataframe, in the sorted key
order pandas groupby produces. -/
def presentCats (df : List Expense) : List String :=
  sortBy strLe (df.map (fun e => e.category)).dedup

/-- groupby('Category')['Amount'].sum() as an association list. -/
def catTotals (df : List Expense) : List (String × ℚ) :=
  (presentCats df).map (fun c => (c, catTotal df c))

/-- The data get_summary prints. -/
structure Summary where
  total : ℚ
  avg : ℚ
  categoryTotals : List (String × ℚ)
deriving DecidableEq, Repr

/-- Model of get_summary (Practical.py lines 53-73): none is the empty
"No expenses recorded." case; otherwise np.sum, np.mean and the
per-category totals. -/
def get_summary (df : List Expense) : Option Summary :=
  if df.isEmpty then none
  else some { total := sumAmounts df
              avg := sumAmounts df / (df.length : ℚ)
              categoryTotals := catTotals df }

/-- First key attaining the maximal value (pandas idxmax keeps the first
occurrence on ties). -/
def idxmax : List (String × ℚ) → String
  | [] => ""
  | p :: rest => (rest.foldl (fun best q => if best.2 < q.2 then q else best) p).1

/-- Year-month bucket key of a row (Date.dt.to_period of month length). -/
def monthKey (e : Expense) : Nat × Nat := (e.date.year, e.date.month)

/-- Chronological order on year-month buckets, as a boolean. -/
def monthLe (a b : Nat × Nat) : Bool :=
  decide (a.1 < b.1) || (a.1 == b.1 && decide (a.2 ≤ b.2))

/-- The distinct month buckets present, chronologically ascending. -/
def presentMonths (df : List Expense) : List (Nat × Nat) :=
  sortBy monthLe (df.map monthKey).dedup

/-- Sum of the Amount column over one month bucket. -/
def monthTotal (df : List Expense) (k : Nat × Nat) : ℚ :=
  ((df.filter (fun e => monthKey e == k)).map (fun e => e.amount)).sum

/-- groupby(Date.dt.to_period of month length)['Amount'].sum(). -/
def monthlyTotals (df : List Expense) : List ((Nat × Nat) × ℚ) :=
  (presentMonths df).map (fun k => (k, monthTotal df k))

/-- The data generate_report prints. -/
structure Report where
  total : ℚ
  topCategory : String
  monthly : List ((Nat × Nat) × ℚ)
deriving DecidableEq, Repr

/-- Model of generate_report (Practical.py lines 107-129): none is the
empty "No expenses to report." case. -/
def generate_report (df : List Expense) : Option Report :=
  if df.isEmpty then none
  else some { total := sumAmounts df
              topCategory := idxmax (catTotals df)
              monthly := monthlyTotals df }

/-- get_summary as a method on the tracker state: it reads self.df and
never assigns to it, so the state component is returned unchanged. -/
def get_summary_m (st : TrackerState) : TrackerState × Option Summary :=
  (st, get_summary st.df)

/-- filter_expenses as a method on the tracker state: it works on
self.df.copy() and never assigns self.df or writes the file. -/
def filter_expenses_m (st : TrackerState) (category start_date end_date : Option String)
    (min_amount : MinArg) : TrackerState × Except FilterError (List Expense) :=
  (st, filter_expenses st.df category start_date end_date min_amount)

/-- generate_report as a method on the tracker state: read-only. -/
def generate_report_m (st : TrackerState) : TrackerState × Option Report :=
  (st, generate_report st.df)

/-- The record invariants the spec requires of every admitted record:
valid calendar date, positive amount, category in the fixed set, non-empty
description (the sentinel having been substituted for an empty one). -/
def validExpense (r : Expense) : Prop :=
  dateValid r.date = true ∧ 0 < r.amount ∧ r.category ∈ categories ∧ r.description ≠ ""

theorem parseDate_valid {s : String} {d : Date} (h : parseDate s = some d) :
    dateValid d = true := by
  unfold parseDate at h
  split at h
  · split at h
    · split at h
      · cases h; assumption
      · cases h
    all_goals cases h
  · cases h

theorem add_expense_success (st : TrackerState) (date amount category description : String)
    (d : Date) (a : ℚ) (hd : parseDate date = some d) (ha : parseFloat amount = some a)
    (hpos : 0 < a) (hcat : category ∈ categories) :
    add_expense st date amount category description =
      (⟨st.df ++ [⟨d, a, category,
          if description = "" then "No description" else description⟩],
        Store.rows (st.df ++ [⟨d, a, category,
          if description = "" then "No description" else description⟩])⟩,
       Except.ok ()) := by
  unfold add_expense
  simp only [hd, ha]
  rw [if_neg (not_le.mpr hpos), if_neg (not_not_intro hcat)]

theorem insertBy_perm (le : α → α → Bool) (x : α) (l : List α) :
    (insertBy le x l).Perm (x :: l) := by
  induction l with
  | nil => exact List.Perm.refl _
  | cons y ys ih =>
    unfold insertBy
    split
    · exact List.Perm.refl _
    · exact (ih.cons y).trans (List.Perm.swap x y ys)

theorem sortBy_perm (le : α → α → Bool) (l : List α) : (sortBy le l).Perm l := by
  induction l with
  | nil => exact List.Perm.refl _
  | cons x xs ih => exact (insertBy_perm le x (sortBy le xs)).trans (ih.cons x)

theorem catTotal_cons (e : Expense) (df : List Expense) (c : String) :
    catTotal (e :: df) c = (if e.category == c then e.amount else 0) + catTotal df c := by
  unfold catTotal
  cases h : e.category == c with
  | true => simp [List.filter_cons, h]
  | false => simp [List.filter_cons, h]

theorem ledger_sum_map_add (l : List α) (f g : α → ℚ) :
    (l.map (fun x => f x + g x)).sum = (l.map f).sum + (l.map g).sum := by
  induction l with
  | nil => simp
  | cons x xs ih =>
    simp only [List.map_cons, List.sum_cons, ih]
    ring

theorem ledger_sum_indicator_not_mem (k : String) (x : ℚ) (cs : List String)
    (h : k ∉ cs) :
    (cs.map (fun c => if k == c then x else 0)).sum = 0 := by
  induction cs with
  | nil => simp
  | cons c cs ih =>
    simp only [List.map_cons, List.sum_cons]
    rw [if_neg, ih (fun hm => h (List.mem_cons_of_mem _ hm))]
    · simp
    · simp only [beq_iff_eq]
      intro hkc
      exact h (hkc ▸ List.mem_cons_self _ _)

theorem ledger_sum_indicator_mem (k : String) (x : ℚ) (cs : List String)
    (hnd : cs.Nodup) (h : k ∈ cs) :
    (cs.map (fun c => if k == c then x else 0)).sum = x := by
  induction cs with
  | nil => cases h
  | cons c cs ih =>
    simp only [List.map_cons, List.sum_cons]
    rcases List.mem_cons.mp h with rfl | hmem
    · rw [if_pos (by simp),
        ledger_sum_indicator_not_mem k x cs (List.nodup_cons.mp hnd).1]
      simp
    · have hne : k ≠ c := by
        intro hk
        exact (List.nodup_cons.mp hnd).1 (hk ▸ hmem)
      rw [if_neg (by simp [hne]), ih (List.nodup_cons.mp hnd).2 hmem]
      simp

theorem ledger_sum_catTotal (df : List Expense) (cs : List String)
    (hnd : cs.Nodup) (hcov : ∀ e ∈ df, e.category ∈ cs) :
    (cs.map (fun c => catTotal df c)).sum = sumAmounts df := by
  induction df with
  | nil => simp [catTotal, sumAmounts]
  | cons e df ih =>
    have hcov' : ∀ r ∈ df, r.category ∈ cs :=
      fun r hr => hcov r (List.mem_cons_of_mem _ hr)
    calc (cs.map (fun c => catTotal (e :: df) c)).sum
        = (cs.map (fun c =>
            (if e.category == c then e.amount else 0) + catTotal df c)).sum := by
          simp only [catTotal_cons]
      _ = (cs.map (fun c => if e.category == c then e.amount else 0)).sum +
            (cs.map (fun c => catTotal df c)).sum :=
          ledger_sum_map_add cs _ _
      _ = e.amount + sumAmounts df := by
          rw [ledger_sum_indicator_mem e.category e.amount cs hnd
              (hcov e (List.mem_cons_self _ _)), ih hcov']
      _ = sumAmounts (e :: df) := by simp [sumAmounts]

theorem presentCats_nodup (df : List Expense) : (presentCats df).Nodup :=
  ((sortBy_perm strLe _).nodup_iff).mpr (List.nodup_dedup _)

theorem mem_presentCats {df : List Expense} {e : Expense} (he : e ∈ df) :
    e.category ∈ presentCats df :=
  ((sortBy_perm strLe _).mem_iff).mpr
    (List.mem_dedup.mpr (List.mem_map_of_mem _ he))

/-- C1, code bug: validation totality fails on the program at the input
amount "nan".  float("nan") succeeds, NaN <= 0 is False so the guard
passes, NaN compares False with everything, and add_expense appends and
persists a record whose amount satisfies neither `amount <= 0` nor the
invariant `amount > 0`: the call neither admits an invariant-satisfying
record nor leaves the ledger unchanged. -/
theorem C1_nan_admits_invalid_record :
    (add_expense_f ⟨[], StoreF.missing⟩ "2024-01-15" "nan" "Food" "x").1.df =
      [⟨⟨2024, 1, 15⟩, PyFloat.nan, "Food", "x"⟩] ∧
    (add_expense_f ⟨[], StoreF.missing⟩ "2024-01-15" "nan" "Food" "x").1.store =
      StoreF.rows [⟨⟨2024, 1, 15⟩, PyFloat.nan, "Food", "x"⟩] ∧
    (add_expense_f ⟨[], StoreF.missing⟩ "2024-01-15" "nan" "Food" "x").2 =
      Except.ok () ∧
    pyLt (PyFloat.val 0) PyFloat.nan = false :=
  ⟨rfl, rfl, rfl, rfl⟩

/-- C2: append atomicity.  On every input on which validation fails
(unparseable date, unparseable amount, non-positive amount, or category
outside the fixed set), add_expense returns the state unchanged, both the
in-memory dataframe and the store, and reports an error to the caller. -/
theorem C2_append_atomicity (st : TrackerState)
    (date amount category description : String)
    (h : parseDate date = none ∨ parseFloat amount = none ∨
      (∃ a, parseFloat amount = some a ∧ a ≤ 0) ∨ category ∉ categories) :
    ∃ e, add_expense st date amount category description = (st, Except.error e) := by
  cases hd : parseDate date with
  | none =>
    exact ⟨AddError.invalidDateOrAmount, by unfold add_expense; rw [hd]⟩
  | some d =>
    cases ha : parseFloat amount with
    | none =>
      exact ⟨AddError.invalidDateOrAmount, by unfold add_expense; simp only [hd, ha]⟩
    | some a =>
      by_cases hle : a ≤ 0
      · exact ⟨AddError.nonPositiveAmount, by
          unfold add_expense; simp only [hd, ha]; rw [if_pos hle]⟩
      · have hcat : category ∉ categories := by
          rcases h with h | h | ⟨b, hb, hble⟩ | h
          · rw [h] at hd; cases hd
          · rw [h] at ha; cases ha
          · rw [ha] at hb
            cases hb
            exact absurd hble hle
          · exact h
        exact ⟨AddError.unknownCategory, by
          unfold add_expense; simp only [hd, ha]; rw [if_neg hle, if_pos hcat]⟩

theorem C2_append_atomicity_witness :
    ∃ e, add_expense ⟨[], Store.missing⟩ "2024-01-15" "-5" "Food" "x" =
      (⟨[], Store.missing⟩, Except.error e) :=
  C2_append_atomicity ⟨[], Store.missing⟩ "2024-01-15" "-5" "Food" "x"
    (Or.inr (Or.inr (Or.inl ⟨Rat.divInt (-5) 1, by decide, by decide⟩)))

/-- C5, counterexample: the claim says a whitespace-only description gets
the sentinel, but add_expense tests Python truthiness (`if not
description:`), which only an empty string fails, so the single-space
description " " is admitted verbatim and differs from the sentinel. -/
theorem C5_sentinel_counterexample :
    ((add_expense ⟨[], Store.missing⟩ "2024-01-15" "42.50" "Food" " ").1.df.map
      (fun r => r.description)) = [" "] ∧ " " ≠ "No description" := by
  exact ⟨rfl, by decide⟩

/-- C5, amended: on a successful append, exactly the empty description is
replaced by the sentinel "No description"; every non-empty description,
whitespace-only ones included, is stored verbatim. -/
theorem C5_description_sentinel (st : TrackerState)
    (date amount category description : String) (d : Date) (a : ℚ)
    (hd : parseDate date = some d) (ha : parseFloat amount = some a)
    (hpos : 0 < a) (hcat : category ∈ categories) :
    ∃ r, (add_expense st date amount category description).1.df = st.df ++ [r] ∧
      (description = "" → r.description = "No description") ∧
      (description ≠ "" → r.description = description) := by
  refine ⟨⟨d, a, category,
    if description = "" then "No description" else description⟩, ?_, ?_, ?_⟩
  · rw [add_expense_success st date amount category description d a hd ha hpos hcat]
  · intro hdesc
    show (if description = "" then "No description" else description) = "No description"
    rw [if_pos hdesc]
  · intro hdesc
    show (if description = "" then "No description" else description) = description
    rw [if_neg hdesc]

theorem C5_description_sentinel_witness :
    ∃ r, (add_expense ⟨[], Store.missing⟩ "2024-01-15" "42.50" "Food" "").1.df =
        [] ++ [r] ∧
      (("" : String) = "" → r.description = "No description") ∧
      (("" : String) ≠ "" → r.description = "") :=
  C5_description_sentinel ⟨[], Store.missing⟩ "2024-01-15" "42.50" "Food" ""
    ⟨2024, 1, 15⟩ (Rat.divInt 4250 100) (by decide) (by decide) (by decide) (by decide)

/-- C8: a missing backing store at load time yields an empty ledger with
zero records, as a non-error result. -/
theorem C8_missing_store_recovery :
    ∃ l, load_data Store.missing = Except.ok l ∧ l.length = 0 :=
  ⟨[], rfl, rfl⟩

/-- C9: falsy filter bounds are treated as absent: an empty-string
category, start date or end date, and a min_amount that is the empty
string or the number 0, filter exactly as if the argument had not been
supplied at all. -/
theorem C9_falsy_bounds_skipped (df : List Expense)
    (category start_date end_date : Option String) (min_amount : MinArg) :
    filter_expenses df (some "") start_date end_date min_amount =
      filter_expenses df none start_date end_date min_amount ∧
    filter_expenses df category (some "") end_date min_amount =
      filter_expenses df category none end_date min_amount ∧
    filter_expenses df category start_date (some "") min_amount =
      filter_expenses df category start_date none min_amount ∧
    filter_expenses df category start_date end_date (MinArg.num 0) =
      filter_expenses df category start_date end_date MinArg.none ∧
    filter_expenses df category start_date end_date (MinArg.str "") =
      filter_expenses df category start_date end_date MinArg.none :=
  ⟨rfl, rfl, rfl, rfl, rfl⟩

/-- C10: get_summary, filter_expenses and generate_report are read-only
derived views: the tracker state after any of these calls equals the state
before it. -/
theorem C10_read_only_views (st : TrackerState)
    (category start_date end_date : Option String) (min_amount : MinArg) :
    (get_summary_m st).1 = st ∧
    (filter_expenses_m st category start_date end_date min_amount).1 = st ∧
    (generate_report_m st).1 = st :=
  ⟨rfl, rfl, rfl⟩

theorem load_data_rows_valid {s : Store} {L : List Expense}
    (hload : load_data s = Except.ok L) : ∀ r ∈ L, validRow r = true := by
  cases s with
  | missing =>
    cases hload
    intro r hr
    cases hr
  | malformed => cases hload
  | rows rs =>
    cases hload
    intro r hr
    exact List.of_mem_filter hr

/-- C3: round-trip of persistence.  Starting from any ledger loaded from
the store, appending one valid record and reloading the rewritten store
yields exactly the original records plus the new one, in order, with equal
field values. -/
theorem C3_round_trip (s : Store) (L : List Expense)
    (hload : load_data s = Except.ok L)
    (date amount category description : String) (d : Date) (a : ℚ)
    (hd : parseDate date = some d) (ha : parseFloat amount = some a)
    (hpos : 0 < a) (hcat : category ∈ categories) :
    ∃ r, (add_expense ⟨L, s⟩ date amount category description).1.df = L ++ [r] ∧
      load_data ((add_expense ⟨L, s⟩ date amount category description).1.store) =
        Except.ok (L ++ [r]) := by
  have hval : validRow ⟨d, a, category,
      if description = "" then "No description" else description⟩ = true := by
    simp [validRow, hpos, hcat]
  refine ⟨⟨d, a, category,
    if description = "" then "No description" else description⟩, ?_, ?_⟩
  · rw [add_expense_success ⟨L, s⟩ date amount category description d a hd ha hpos hcat]
  · rw [add_expense_success ⟨L, s⟩ date amount category description d a hd ha hpos hcat]
    show load_data (Store.rows (L ++ [_])) = _
    simp only [load_data]
    rw [List.filter_append,
      List.filter_eq_self.mpr (load_data_rows_valid hload)]
    simp [List.filter_cons, hval]

theorem C3_round_trip_witness :
    ∃ r, (add_expense ⟨[⟨⟨2024, 1, 1⟩, Rat.divInt 10 1, "Food", "prior"⟩],
          Store.rows [⟨⟨2024, 1, 1⟩, Rat.divInt 10 1, "Food", "prior"⟩]⟩
        "2024-01-15" "42.50" "Food" "x").1.df =
        [⟨⟨2024, 1, 1⟩, Rat.divInt 10 1, "Food", "prior"⟩] ++ [r] ∧
      load_data ((add_expense ⟨[⟨⟨2024, 1, 1⟩, Rat.divInt 10 1, "Food", "prior"⟩],
          Store.rows [⟨⟨2024, 1, 1⟩, Rat.divInt 10 1, "Food", "prior"⟩]⟩
        "2024-01-15" "42.50" "Food" "x").1.store) =
        Except.ok ([⟨⟨2024, 1, 1⟩, Rat.divInt 10 1, "Food", "prior"⟩] ++ [r]) :=
  C3_round_trip (Store.rows [⟨⟨2024, 1, 1⟩, Rat.divInt 10 1, "Food", "prior"⟩])
    [⟨⟨2024, 1, 1⟩, Rat.divInt 10 1, "Food", "prior"⟩] rfl
    "2024-01-15" "42.50" "Food" "x" ⟨2024, 1, 15⟩ (Rat.divInt 4250 100)
    (by decide) (by decide) (by decide) (by decide)

/-- In exact rational arithmetic, the per-category totals always sum to
the grand total.  This is a fact of the exact model only: the program
accumulates np.sum and the groupby sums in float64, whose rounding breaks
the identity on valid ledgers (record order [Transport 2^53, Food 1,
Entertainment 1] gives np.sum fl(fl(2^53 + 1) + 1) = 2^53 while the
per-category totals are exact and sum to 2^53 + 2), which is why the
aggregation-identity claim C6 is recorded as a code bug rather than
proved from this lemma. -/
theorem catTotals_sum_eq_total_exact (df : List Expense) :
    ((catTotals df).map Prod.snd).sum = sumAmounts df := by
  unfold catTotals
  rw [List.map_map]
  exact ledger_sum_catTotal df (presentCats df) (presentCats_nodup df)
    (fun e he => mem_presentCats he)

/-- C7: filter-bound error abort.  Whenever a supplied (truthy) start
date, end date, or minimum amount fails to parse, the whole
filter_expenses call returns an error and no filtered result. -/
theorem C7_filter_bound_abort (df : List Expense)
    (category start_date end_date : Option String) (min_amount : MinArg)
    (h : (optTruthy start_date = true ∧ parseDate (start_date.getD "") = none) ∨
         (optTruthy end_date = true ∧ parseDate (end_date.getD "") = none) ∨
         (minTruthy min_amount = true ∧ parseMin min_amount = none)) :
    ∃ err, filter_expenses df category start_date end_date min_amount =
      Except.error err := by
  unfold filter_expenses
  rcases h with ⟨ht, hp⟩ | ⟨ht, hp⟩ | ⟨ht, hp⟩
  · have hres : applyStart start_date (applyCategory category df) =
        Except.error FilterError.invalidStartDate := by
      unfold applyStart; rw [if_pos ht, hp]
    rw [hres]
    exact ⟨FilterError.invalidStartDate, rfl⟩
  · cases hres : applyStart start_date (applyCategory category df) with
    | error e => exact ⟨e, rfl⟩
    | ok f2 =>
      have h2 : applyEnd end_date f2 = Except.error FilterError.invalidEndDate := by
        unfold applyEnd; rw [if_pos ht, hp]
      refine ⟨FilterError.invalidEndDate, ?_⟩
      show (match applyEnd end_date f2 with
        | Except.error e => Except.error e
        | Except.ok f3 =>
          match applyMin min_amount f3 with
          | Except.error e => Except.error e
          | Except.ok f4 => Except.ok f4) = _
      rw [h2]
  · cases hres : applyStart start_date (applyCategory category df) with
    | error e => exact ⟨e, rfl⟩
    | ok f2 =>
      cases hres2 : applyEnd end_date f2 with
      | error e =>
        refine ⟨e, ?_⟩
        show (match applyEnd end_date f2 with
          | Except.error e => Except.error e
          | Except.ok f3 =>
            match applyMin min_amount f3 with
            | Except.error e => Except.error e
            | Except.ok f4 => Except.ok f4) = _
        rw [hres2]
      | ok f3 =>
        have h3 : applyMin min_amount f3 =
            Except.error FilterError.invalidMinAmount := by
          unfold applyMin; rw [if_pos ht, hp]
        refine ⟨FilterError.invalidMinAmount, ?_⟩
        show (match applyEnd end_date f2 with
          | Except.error e => Except.error e
          | Except.ok f3 =>
            match applyMin min_amount f3 with
            | Except.error e => Except.error e
            | Except.ok f4 => Except.ok f4) = _
        rw [hres2]
        show (match applyMin min_amount f3 with
          | Except.error e => Except.error e
          | Except.ok f4 => Except.ok f4) = _
        rw [h3]

theorem C7_filter_bound_abort_witness :
    (optTruthy (some "junk") = true ∧ parseDate ((some "junk").getD "") = none) ∧
    ∃ err, filter_expenses [] none (some "junk") none MinArg.none =
      Except.error err :=
  ⟨⟨by decide, by decide⟩,
    C7_filter_bound_abort [] none (some "junk") none MinArg.none
      (Or.inl ⟨by decide, by decide⟩)⟩

theorem applyCategory_filter (category : Option String) (l : List Expense) :
    applyCategory category l =
      l.filter (fun r => !optTruthy category || (r.category == category.getD "")) := by
  by_cases h : optTruthy category = true <;> simp [applyCategory, h]

theorem applyStart_filter (start_date : Option String) (l : List Expense) (s : Date)
    (hs : optTruthy start_date = true → parseDate (start_date.getD "") = some s) :
    applyStart start_date l =
      Except.ok (l.filter (fun r => !optTruthy start_date || dateLe s r.date)) := by
  by_cases h : optTruthy start_date = true
  · simp [applyStart, h, hs h]
  · simp [applyStart, h]

theorem applyEnd_filter (end_date : Option String) (l : List Expense) (e : Date)
    (he : optTruthy end_date = true → parseDate (end_date.getD "") = some e) :
    applyEnd end_date l =
      Except.ok (l.filter (fun r => !optTruthy end_date || dateLe r.date e)) := by
  by_cases h : optTruthy end_date = true
  · simp [applyEnd, h, he h]
  · simp [applyEnd, h]

theorem applyMin_filter (min_amount : MinArg) (l : List Expense) (m : ℚ)
    (hm : minTruthy min_amount = true → parseMin min_amount = some m) :
    applyMin min_amount l =
      Except.ok (l.filter (fun r => !minTruthy min_amount || decide (m ≤ r.amount))) := by
  by_cases h : minTruthy min_amount = true
  · simp [applyMin, h, hm h]
  · simp [applyMin, h]

/-- C4: filter correctness.  For every ledger and every combination of
supplied (truthy) predicates whose bounds parse, filter_expenses returns
exactly the subsequence of records satisfying the conjunction of the
supplied predicates, in the original order; omitted or falsy predicates
impose no condition. -/
theorem C4_filter_correctness (df : List Expense)
    (category start_date end_date : Option String) (min_amount : MinArg)
    (s e : Date) (m : ℚ)
    (hs : optTruthy start_date = true → parseDate (start_date.getD "") = some s)
    (he : optTruthy end_date = true → parseDate (end_date.getD "") = some e)
    (hm : minTruthy min_amount = true → parseMin min_amount = some m) :
    filter_expenses df category start_date end_date min_amount =
      Except.ok (df.filter (fun r =>
        (!optTruthy category || (r.category == category.getD "")) &&
        (!optTruthy start_date || dateLe s r.date) &&
        (!optTruthy end_date || dateLe r.date e) &&
        (!minTruthy min_amount || decide (m ≤ r.amount)))) := by
  simp only [filter_expenses, applyCategory_filter,
    applyStart_filter start_date _ s hs, applyEnd_filter end_date _ e he,
    applyMin_filter min_amount _ m hm, List.filter_filter]
  congr 1
  apply List.filter_congr
  intro r _
  simp only [Bool.and_assoc, Bool.and_comm, Bool.and_left_comm]

theorem C4_filter_correctness_witness :
    filter_expenses
        [⟨⟨2024, 1, 1⟩, Rat.divInt 10 1, "Food", "a"⟩,
         ⟨⟨2024, 2, 1⟩, Rat.divInt 20 1, "Food", "b"⟩,
         ⟨⟨2024, 1, 2⟩, Rat.divInt 5 1, "Transport", "c"⟩]
        (some "Food") none none (MinArg.str "15") =
      Except.ok (([⟨⟨2024, 1, 1⟩, Rat.divInt 10 1, "Food", "a"⟩,
         ⟨⟨2024, 2, 1⟩, Rat.divInt 20 1, "Food", "b"⟩,
         ⟨⟨2024, 1, 2⟩, Rat.divInt 5 1, "Transport", "c"⟩] : List Expense).filter
        (fun r =>
          (!optTruthy (some "Food") || (r.category == (some "Food").getD "")) &&
          (!optTruthy none || dateLe ⟨1970, 1, 1⟩ r.date) &&
          (!optTruthy none || dateLe r.date ⟨1970, 1, 1⟩) &&
          (!minTruthy (MinArg.str "15") || decide (Rat.divInt 15 1 ≤ r.amount)))) :=
  C4_filter_correctness
    [⟨⟨2024, 1, 1⟩, Rat.divInt 10 1, "Food", "a"⟩,
     ⟨⟨2024, 2, 1⟩, Rat.divInt 20 1, "Food", "b"⟩,
     ⟨⟨2024, 1, 2⟩, Rat.divInt 5 1, "Transport", "c"⟩]
    (some "Food") none none (MinArg.str "15")
    ⟨1970, 1, 1⟩ ⟨1970, 1, 1⟩ (Rat.divInt 15 1)
    (fun h => nomatch h) (fun h => nomatch h) (fun _ => by decide)
